import Mathlib

set_option autoImplicit false
set_option linter.unusedVariables false

/-!
Shallow embedding of the plaso storage interface
(`plaso/storage/interface.py`) and the parts of its collaborators that the
verified properties need.  Pure Python methods become Lean functions;
raised exceptions become `Except` errors; generators pulled positionally
become lists consumed from the front.
-/

namespace Plaso

/-- Attribute container type tags, one per `CONTAINER_TYPE` constant listed
in `BaseStore` (interface.py lines 26 to 62). -/
inductive ContainerType where
  | analysisReport
  | analysisWarning
  | event
  | eventData
  | eventDataStream
  | eventSource
  | eventTag
  | extractionWarning
  | preprocessingWarning
  | recoveryWarning
  | sessionCompletion
  | sessionConfiguration
  | sessionStart
  | systemConfiguration
  | taskCompletion
  | taskStart
deriving DecidableEq, Repr

/-- Container types that only should be used in a session store
(`BaseStore._SESSION_STORE_ONLY_CONTAINER_TYPES`, interface.py lines 64 to 68). -/
def SESSION_STORE_ONLY_CONTAINER_TYPES : List ContainerType :=
  [ContainerType.sessionCompletion, ContainerType.sessionStart,
   ContainerType.systemConfiguration]

/-- Container types that only should be used in a task store
(`BaseStore._TASK_STORE_ONLY_CONTAINER_TYPES`, interface.py lines 70 to 73). -/
def TASK_STORE_ONLY_CONTAINER_TYPES : List ContainerType :=
  [ContainerType.taskCompletion, ContainerType.taskStart]

/-- Modelled from the spec: `plaso/lib/definitions.py` is not part of the
inspected source; the spec (section 3) states `storage_type` ranges over
the two values session and task (`STORAGE_TYPE_SESSION`, `STORAGE_TYPE_TASK`). -/
inductive StorageType where
  | session
  | task
deriving DecidableEq, Repr

/-- Primitive attribute values carried by a container (spec section 3:
named attributes whose values are primitive scalars). -/
inductive AttributeValue where
  | str (s : String)
  | int (i : Int)
  | bool (b : Bool)
deriving DecidableEq, Repr

/-- Modelled from the spec: the container classes under `plaso/containers/`
are not part of the inspected source.  Spec section 3: a typed record with a
`container_type` tag and a set of named attributes; a Python attribute that
is absent and one bound to `None` are modelled as a missing key and a key
bound to `none` respectively. -/
structure AttributeContainer where
  container_type : ContainerType
  attributes : List (String × Option AttributeValue)
deriving DecidableEq, Repr

/-- Looks an attribute up on a container.  An absent attribute and an
attribute bound to `None` both read back as `none`, matching Python
attribute access through `getattr(container, name, None)`. -/
def AttributeContainer.getAttr (c : AttributeContainer) (name : String) :
    Option AttributeValue :=
  match c.attributes.lookup name with
  | some (some v) => some v
  | _ => none

/-- Modelled from the spec: session records carry a session identifier
attribute named `identifier` shared by matched start, configuration and
completion records (spec sections 3 and 4.5). -/
def AttributeContainer.sessionIdentifier (c : AttributeContainer) :
    Option AttributeValue :=
  c.getAttr "identifier"

/-- Errors raised by the storage layer.  Every constructor except
`unboundLocalSessionCompletion` models a Python `IOError`;
`unboundLocalSessionCompletion` models the `UnboundLocalError` Python
raises when `GetSessions` reads its `session_completion` variable before
any completion record was ever pulled. -/
inductive StorageError where
  | notWritable
  | sessionStartNotSupported
  | sessionCompletionNotSupported
  | taskStartNotSupported
  | taskCompletionNotSupported
  | missingSessionStart (index : Nat)
  | missingSessionConfiguration (index : Nat)
  | sessionConfigurationMismatch (index : Nat)
  | sessionCompletionMismatch (index : Nat)
  | unboundLocalSessionCompletion
  | unableToDecodeSerializedData
  | unableToReadSerializedData
  | unableToSerialize (containerType : ContainerType)
deriving DecidableEq, Repr

/-- Modelled from the spec: the persisted byte string produced by the JSON
serializer (`plaso/serializer/json_serializer.py` is not part of the
inspected source).  `empty` is the empty byte string; `obj` is the encoding
of a well-formed record; `invalidText` is a byte string that is not valid
UTF-8 text; `malformed` is valid text that does not parse into a record
(spec section 4.2 distinguishes exactly these decode outcomes). -/
inductive SerializedData where
  | empty
  | obj (containerType : ContainerType)
      (attributes : List (String × AttributeValue))
  | invalidText
  | malformed
deriving DecidableEq, Repr

/-- Python `if not serialized_data` on a byte string: true only on the
empty byte string. -/
def SerializedData.isEmptyData : SerializedData → Bool
  | SerializedData.empty => true
  | _ => false

/-- Modelled from the spec: the serializer drops attributes bound to
`None` when encoding (spec section 4.2: absent and `None` attributes decode
back to absent or `None`), keeping the remaining attributes in order. -/
def normalizeAttrs : List (String × Option AttributeValue) →
    List (String × AttributeValue)
  | [] => []
  | (a, none) :: rest => normalizeAttrs rest
  | (a, some v) :: rest => (a, v) :: normalizeAttrs rest

/-- Modelled from the spec: `JSONAttributeContainerSerializer.WriteSerialized`,
section 4.2: encodes the container type tag and its non-`None` attributes. -/
def WriteSerialized (c : AttributeContainer) : SerializedData :=
  SerializedData.obj c.container_type (normalizeAttrs c.attributes)

/-- Modelled from the spec: the UTF-8 decode of the byte string followed by
`JSONAttributeContainerSerializer.ReadSerialized` (spec section 4.2): a
byte string that is not valid text fails with a `UnicodeDecodeError`
outcome, text that does not parse fails with a `ValueError` outcome, and a
well-formed encoding rebuilds the record with every encoded attribute
present. -/
def ReadSerializedData : SerializedData →
    Except StorageError AttributeContainer
  | SerializedData.empty => Except.error StorageError.unableToReadSerializedData
  | SerializedData.invalidText =>
      Except.error StorageError.unableToDecodeSerializedData
  | SerializedData.malformed =>
      Except.error StorageError.unableToReadSerializedData
  | SerializedData.obj t attrs =>
      Except.ok ⟨t, attrs.map (fun p => (p.1, some p.2))⟩

/-- Embedding of `BaseStore._SerializeAttributeContainer` (interface.py
lines 146 to 176).  The second component counts the `StartTiming` calls on
the serializers profiler (one when a profiler is set, zero otherwise). -/
def SerializeAttributeContainer (profilerOn : Bool) (c : AttributeContainer) :
    Except StorageError SerializedData × Nat :=
  let timing := if profilerOn then 1 else 0
  let data := WriteSerialized c
  if data.isEmptyData then
    (Except.error (StorageError.unableToSerialize c.container_type), timing)
  else
    (Except.ok data, timing)

/-- Embedding of `BaseStore._DeserializeAttributeContainer` (interface.py
lines 91 to 126).  Empty serialized data returns `none` before the profiler
is consulted; otherwise the data is decoded and read, decode failures being
re-raised as I/O errors.  The second component counts the `StartTiming`
calls on the serializers profiler. -/
def DeserializeAttributeContainer (profilerOn : Bool)
    (containerType : ContainerType) (data : SerializedData) :
    Except StorageError (Option AttributeContainer) × Nat :=
  if data.isEmptyData then
    (Except.ok none, 0)
  else
    let timing := if profilerOn then 1 else 0
    match ReadSerializedData data with
    | Except.ok c => (Except.ok (some c), timing)
    | Except.error e => (Except.error e, timing)

/-- Container equality as the round-trip law reads it: same container type
and, for every attribute name either side mentions, the same looked-up
value, with absent and `None` identified and attribute order insignificant. -/
def containerEqv (c d : AttributeContainer) : Bool :=
  decide (c.container_type = d.container_type) &&
  ((c.attributes.map Prod.fst) ++ (d.attributes.map Prod.fst)).all
    (fun k => decide (c.getAttr k = d.getAttr k))

/-- Embedding of `BaseStore` state.  The abstract backend (spec section 3:
a store has binary open and closed, readable and writable state, and an
ordered collection of containers) is represented explicitly; `last_session`
is the `_last_session` counter. -/
structure BaseStore where
  storage_type : StorageType
  is_open : Bool
  read_only : Bool
  containers : List AttributeContainer
  last_session : Nat
deriving DecidableEq, Repr

/-- Modelled from the spec: `_RaiseIfNotWritable` is abstract in
interface.py; spec sections 4.3 and 7 require the not-writable error when
the store is closed or read-only. -/
def RaiseIfNotWritable (s : BaseStore) : Except StorageError Unit :=
  if s.is_open && !s.read_only then Except.ok ()
  else Except.error StorageError.notWritable

/-- Modelled from the spec: `_WriteNewAttributeContainer` is abstract in
interface.py; spec section 4.3: persist the container, appended in write
order. -/
def WriteNewAttributeContainer (s : BaseStore) (c : AttributeContainer) :
    BaseStore :=
  { s with containers := s.containers ++ [c] }

/-- Modelled from the spec: `HasAttributeContainers` is abstract in
interface.py; spec section 4.3: an existence check for containers of the
given type. -/
def HasAttributeContainers (s : BaseStore) (t : ContainerType) : Bool :=
  s.containers.any (fun c => decide (c.container_type = t))

/-- Modelled from the spec: `GetAttributeContainers` is abstract in
interface.py; spec section 4.3: all containers of the given type in write
order, consumed as a single-pass forward-only sequence. -/
def GetAttributeContainers (s : BaseStore) (t : ContainerType) :
    List AttributeContainer :=
  s.containers.filter (fun c => decide (c.container_type = t))

/-- Embedding of `BaseStore.AddAttributeContainer` (interface.py lines 188
to 199): the writable-state check followed by the write, and nothing else. -/
def AddAttributeContainer (s : BaseStore) (c : AttributeContainer) :
    Except StorageError BaseStore :=
  match RaiseIfNotWritable s with
  | Except.error e => Except.error e
  | Except.ok _ => Except.ok (WriteNewAttributeContainer s c)

/-- Embedding of `BaseStore.WriteSessionCompletion` (interface.py lines 392
to 409). -/
def WriteSessionCompletion (s : BaseStore) (c : AttributeContainer) :
    Except StorageError BaseStore :=
  match RaiseIfNotWritable s with
  | Except.error e => Except.error e
  | Except.ok _ =>
    if s.storage_type ≠ StorageType.session then
      Except.error StorageError.sessionCompletionNotSupported
    else
      Except.ok (WriteNewAttributeContainer s c)

/-- Embedding of `BaseStore.WriteSessionConfiguration` (interface.py lines
411 to 426): after the writable-state check the container is written only
when the store holds no system-configuration containers; there is no
storage-type check. -/
def WriteSessionConfiguration (s : BaseStore) (c : AttributeContainer) :
    Except StorageError BaseStore :=
  match RaiseIfNotWritable s with
  | Except.error e => Except.error e
  | Except.ok _ =>
    if !(HasAttributeContainers s ContainerType.systemConfiguration) then
      Except.ok (WriteNewAttributeContainer s c)
    else
      Except.ok s

/-- Embedding of `BaseStore.WriteSessionStart` (interface.py lines 428 to
445). -/
def WriteSessionStart (s : BaseStore) (c : AttributeContainer) :
    Except StorageError BaseStore :=
  match RaiseIfNotWritable s with
  | Except.error e => Except.error e
  | Except.ok _ =>
    if s.storage_type ≠ StorageType.session then
      Except.error StorageError.sessionStartNotSupported
    else
      Except.ok (WriteNewAttributeContainer s c)

/-- Embedding of `BaseStore.WriteTaskCompletion` (interface.py lines 447 to
464); the message of the raised error reads Task start not supported in the
source. -/
def WriteTaskCompletion (s : BaseStore) (c : AttributeContainer) :
    Except StorageError BaseStore :=
  match RaiseIfNotWritable s with
  | Except.error e => Except.error e
  | Except.ok _ =>
    if s.storage_type ≠ StorageType.task then
      Except.error StorageError.taskStartNotSupported
    else
      Except.ok (WriteNewAttributeContainer s c)

/-- Embedding of `BaseStore.WriteTaskStart` (interface.py lines 466 to
483); the message of the raised error reads Task completion not supported
in the source. -/
def WriteTaskStart (s : BaseStore) (c : AttributeContainer) :
    Except StorageError BaseStore :=
  match RaiseIfNotWritable s with
  | Except.error e => Except.error e
  | Except.ok _ =>
    if s.storage_type ≠ StorageType.task then
      Except.error StorageError.taskCompletionNotSupported
    else
      Except.ok (WriteNewAttributeContainer s c)

/-- Modelled from the spec: `sessions.Session` (under `plaso/containers/`,
not part of the inspected source).  Spec sections 3 and 4.5: a derived
aggregate built from a session-start record and, when merged, matching
configuration and completion records, all sharing one session identifier. -/
structure Session where
  identifier : Option AttributeValue
  startRecord : AttributeContainer
  configurationRecord : Option AttributeContainer
  completionRecord : Option AttributeContainer
deriving DecidableEq, Repr

/-- Modelled from the spec: `Session.CopyAttributesFromSessionStart` seeds
the aggregate from the start record and adopts its session identifier. -/
def Session.CopyAttributesFromSessionStart (c : AttributeContainer) :
    Session :=
  ⟨c.sessionIdentifier, c, none, none⟩

/-- Modelled from the spec: `Session.CopyAttributesFromSessionConfiguration`
raises `ValueError` when the session identifier of the configuration record
does not match the session (spec section 4.5 step 4), and otherwise merges
the record in. -/
def Session.CopyAttributesFromSessionConfiguration (s : Session)
    (c : AttributeContainer) : Except Unit Session :=
  if c.sessionIdentifier = s.identifier then
    Except.ok { s with configurationRecord := some c }
  else
    Except.error ()

/-- Modelled from the spec: `Session.CopyAttributesFromSessionCompletion`
raises `ValueError` when the session identifier of the completion record
does not match the session (spec section 4.5 step 4), and otherwise merges
the record in. -/
def Session.CopyAttributesFromSessionCompletion (s : Session)
    (c : AttributeContainer) : Except Unit Session :=
  if c.sessionIdentifier = s.identifier then
    Except.ok { s with completionRecord := some c }
  else
    Except.error ()

/-- A session whose merged configuration and completion records, when
present, carry the session identifier of the session itself. -/
def Session.wellMerged (s : Session) : Prop :=
  (∀ cfg, s.configurationRecord = some cfg →
      cfg.sessionIdentifier = s.identifier) ∧
  (∀ comp, s.completionRecord = some comp →
      comp.sessionIdentifier = s.identifier)

/-- The loop state of `GetSessions`: the unread remainders of the three
generators plus the current value of the Python local variable
`session_completion`, which the source never resets on `StopIteration`
(interface.py line 296 is a bare pass); `none` models the variable being
unbound.  `configs = none` models the absent configuration generator. -/
structure GenState where
  starts : List AttributeContainer
  completions : List AttributeContainer
  lastCompletion : Option AttributeContainer
  configs : Option (List AttributeContainer)
deriving DecidableEq, Repr

/-- The completion pull of `GetSessions` (interface.py lines 293 to 296):
on `StopIteration` the bare pass leaves `session_completion` holding the
value from the previous iteration, or unbound if there was none. -/
def pullCompletion (completions : List AttributeContainer)
    (lastCompletion : Option AttributeContainer) :
    Option AttributeContainer × List AttributeContainer :=
  match completions with
  | [] => (lastCompletion, [])
  | c :: rest => (some c, rest)

/-- The configuration pull of `GetSessions` (interface.py lines 298 to
304): `session_configuration` is reset each iteration; exhaustion of an
existing configuration generator raises the missing-configuration error. -/
def pullConfiguration (idx : Nat)
    (configs : Option (List AttributeContainer)) :
    Except StorageError
      (Option AttributeContainer × Option (List AttributeContainer)) :=
  match configs with
  | none => Except.ok (none, none)
  | some [] => Except.error (StorageError.missingSessionConfiguration idx)
  | some (c :: rest) => Except.ok (some c, some rest)

/-- The configuration merge of `GetSessions` (interface.py lines 309 to
315): a `ValueError` from the merge is re-raised as the
session-configuration identifier mismatch I/O error. -/
def mergeConfiguration (idx : Nat) (sess : Session) :
    Option AttributeContainer → Except StorageError Session
  | none => Except.ok sess
  | some cfg =>
    match sess.CopyAttributesFromSessionConfiguration cfg with
    | Except.ok s2 => Except.ok s2
    | Except.error _ =>
        Except.error (StorageError.sessionConfigurationMismatch idx)

/-- The completion merge of `GetSessions` (interface.py lines 317 to 323).
Attribute containers define no truthiness of their own, so the Python test
if session_completion is true whenever the variable is bound; reading it
unbound raises `UnboundLocalError`.  A `ValueError` from the merge is
re-raised as the session-completion identifier mismatch I/O error. -/
def mergeCompletion (idx : Nat) (sess : Session) :
    Option AttributeContainer → Except StorageError Session
  | none => Except.error StorageError.unboundLocalSessionCompletion
  | some comp =>
    match sess.CopyAttributesFromSessionCompletion comp with
    | Except.ok s2 => Except.ok s2
    | Except.error _ =>
        Except.error (StorageError.sessionCompletionMismatch idx)

/-- One iteration of the `GetSessions` loop body (interface.py lines 287 to
325) at loop index `idx`. -/
def GetSessionsStep (idx : Nat) (g : GenState) :
    Except StorageError (Session × GenState) :=
  match g.starts with
  | [] => Except.error (StorageError.missingSessionStart idx)
  | sessionStart :: startsRest =>
    let pulled := pullCompletion g.completions g.lastCompletion
    match pullConfiguration idx g.configs with
    | Except.error e => Except.error e
    | Except.ok (sessionConfiguration, configsRest) =>
      let session0 := Session.CopyAttributesFromSessionStart sessionStart
      match mergeConfiguration idx session0 sessionConfiguration with
      | Except.error e => Except.error e
      | Except.ok session1 =>
        match mergeCompletion idx session1 pulled.1 with
        | Except.error e => Except.error e
        | Except.ok session2 =>
            Except.ok (session2, ⟨startsRest, pulled.2, pulled.1, configsRest⟩)

/-- The `GetSessions` loop over the remaining iteration count, collecting
the yielded sessions; the `Except` value collapses the Python generator to
either the full list of yielded sessions or the first exception raised. -/
def GetSessionsAux : Nat → Nat → GenState →
    Except StorageError (List Session)
  | 0, _, _ => Except.ok []
  | Nat.succ n, idx, g =>
    match GetSessionsStep idx g with
    | Except.error e => Except.error e
    | Except.ok (sess, g2) =>
      match GetSessionsAux n (idx + 1) g2 with
      | Except.error e => Except.error e
      | Except.ok rest => Except.ok (sess :: rest)

/-- Embedding of `BaseStore.GetSessions` (interface.py lines 264 to 325):
three forward-only streams are zipped positionally for session indices 1 to
`last_session`; the configuration stream exists only when the store has
session-configuration containers. -/
def GetSessions (s : BaseStore) : Except StorageError (List Session) :=
  GetSessionsAux s.last_session 1
    { starts := GetAttributeContainers s ContainerType.sessionStart,
      completions := GetAttributeContainers s ContainerType.sessionCompletion,
      lastCompletion := none,
      configs :=
        if HasAttributeContainers s ContainerType.sessionConfiguration then
          some (GetAttributeContainers s ContainerType.sessionConfiguration)
        else
          none }

/-- Embedding of `StorageReader` state: whether the reader is open, and how
often `Close` has been invoked on it. -/
structure StorageReader where
  is_open : Bool
  close_call_count : Nat
deriving DecidableEq, Repr

/-- Modelled from the spec: `StorageReader.Close` is abstract in
interface.py; closing transitions the reader to the closed state. -/
def StorageReader.Close (r : StorageReader) : StorageReader :=
  { r with is_open := false, close_call_count := r.close_call_count + 1 }

/-- Embedding of `StorageReader.__enter__` (interface.py lines 504 to 506):
returns the reader itself. -/
def StorageReader.enter (r : StorageReader) : StorageReader :=
  r

/-- Embedding of `StorageReader.__exit__` (interface.py lines 509 to 511):
invokes `Close` whatever exception information is passed. -/
def StorageReader.exitWith (r : StorageReader)
    (exceptionInfo : Option StorageError) : StorageReader :=
  match exceptionInfo with
  | _ => r.Close

/-- The Python with-statement protocol over a `StorageReader`: run
`__enter__`, run the body on its result, and run `__exit__` on every exit
path, passing the exception when the body raised one.  Returns the body
outcome together with the reader after exit. -/
def runWithStorageReader {α : Type} (r : StorageReader)
    (body : StorageReader → Except StorageError α) :
    Except StorageError α × StorageReader :=
  let entered := r.enter
  match body entered with
  | Except.ok a => (Except.ok a, entered.exitWith none)
  | Except.error e => (Except.error e, entered.exitWith (some e))

/-- A session-start record with the given session identifier. -/
def mkSessionStart (ident : String) : AttributeContainer :=
  ⟨ContainerType.sessionStart, [("identifier", some (AttributeValue.str ident))]⟩

/-- A session-completion record with the given session identifier. -/
def mkSessionCompletion (ident : String) : AttributeContainer :=
  ⟨ContainerType.sessionCompletion,
   [("identifier", some (AttributeValue.str ident))]⟩

/-- A session-configuration record with the given session identifier. -/
def mkSessionConfiguration (ident : String) : AttributeContainer :=
  ⟨ContainerType.sessionConfiguration,
   [("identifier", some (AttributeValue.str ident))]⟩

/-- A task-start record. -/
def mkTaskStart : AttributeContainer :=
  ⟨ContainerType.taskStart, [("identifier", some (AttributeValue.str "t1"))]⟩

/-- A task-completion record. -/
def mkTaskCompletion : AttributeContainer :=
  ⟨ContainerType.taskCompletion,
   [("identifier", some (AttributeValue.str "t1"))]⟩

/-- An open, writable, empty task store. -/
def taskStoreEx : BaseStore :=
  ⟨StorageType.task, true, false, [], 0⟩

/-- A session store with `last_session = 3` whose completion stream lacks
the record of session 2: starts for s1, s2, s3 but completions only for s1
and s3. -/
def store3Ex : BaseStore :=
  ⟨StorageType.session, true, false,
   [mkSessionStart "s1", mkSessionStart "s2", mkSessionStart "s3",
    mkSessionCompletion "s1", mkSessionCompletion "s3"], 3⟩

/-- A session store with `last_session = 2` whose completion stream is
exhausted after session 1: starts for s1 and s2, one completion for s1. -/
def staleCompletionStoreEx : BaseStore :=
  ⟨StorageType.session, true, false,
   [mkSessionStart "s1", mkSessionStart "s2", mkSessionCompletion "s1"], 2⟩

/-- A session store with `last_session = 1` and no completion records at
all. -/
def noCompletionStoreEx : BaseStore :=
  ⟨StorageType.session, true, false, [mkSessionStart "s1"], 1⟩

/-- A session store with one matched start and completion pair. -/
def okStoreEx : BaseStore :=
  ⟨StorageType.session, true, false,
   [mkSessionStart "s1", mkSessionCompletion "s1"], 1⟩

/-- A closed session store. -/
def closedStoreEx : BaseStore :=
  ⟨StorageType.session, false, false, [], 0⟩

/-- An event container with a string attribute, an attribute bound to
`None` and an integer attribute. -/
def roundTripContainerEx : AttributeContainer :=
  ⟨ContainerType.event,
   [("a", some (AttributeValue.str "x")), ("b", none),
    ("n", some (AttributeValue.int 7))]⟩

/-- The session assembled from `okStoreEx`. -/
def okSessionEx : Session :=
  ⟨some (AttributeValue.str "s1"), mkSessionStart "s1", none,
   some (mkSessionCompletion "s1")⟩

theorem lookup_none_of_not_mem {β : Type} (k : String) :
    ∀ l : List (String × β), k ∉ l.map Prod.fst → List.lookup k l = none := by
  intro l
  induction l with
  | nil => intro _; rfl
  | cons p rest ih =>
    intro h
    obtain ⟨a, b⟩ := p
    simp only [List.map_cons, List.mem_cons, not_or] at h
    obtain ⟨hka, hrest⟩ := h
    have hba : (k == a) = false := beq_eq_false_iff_ne.mpr hka
    simp [List.lookup, hba, ih hrest]

theorem keys_map_some (l : List (String × AttributeValue)) :
    (l.map (fun p => (p.1, some p.2))).map Prod.fst = l.map Prod.fst := by
  induction l with
  | nil => rfl
  | cons p rest ih => simp [ih]

theorem mem_keys_normalizeAttrs (k : String) :
    ∀ attrs : List (String × Option AttributeValue),
      k ∈ (normalizeAttrs attrs).map Prod.fst → k ∈ attrs.map Prod.fst := by
  intro attrs
  induction attrs with
  | nil => simp [normalizeAttrs]
  | cons p rest ih =>
    obtain ⟨a, v⟩ := p
    cases v with
    | none =>
      intro h
      simp only [normalizeAttrs] at h
      exact List.mem_cons_of_mem a (ih h)
    | some w =>
      intro h
      simp only [normalizeAttrs, List.map_cons, List.mem_cons] at h
      rcases h with h | h
      · simp [h]
      · exact List.mem_cons_of_mem a (ih h)

theorem getAttr_decode_encode (t t2 : ContainerType) (k : String) :
    ∀ attrs : List (String × Option AttributeValue),
      (attrs.map Prod.fst).Nodup →
      AttributeContainer.getAttr
          ⟨t, (normalizeAttrs attrs).map (fun p => (p.1, some p.2))⟩ k
        = AttributeContainer.getAttr ⟨t2, attrs⟩ k := by
  intro attrs
  induction attrs with
  | nil => intro _; rfl
  | cons p rest ih =>
    intro h
    obtain ⟨a, v⟩ := p
    simp only [List.map_cons, List.nodup_cons] at h
    obtain ⟨hnot, hnd⟩ := h
    by_cases hk : k = a
    · subst hk
      cases v with
      | none =>
        have hnone :
            List.lookup k
              ((normalizeAttrs rest).map (fun p => (p.1, some p.2))) = none := by
          apply lookup_none_of_not_mem
          rw [keys_map_some]
          intro hmem
          exact hnot (mem_keys_normalizeAttrs k rest hmem)
        simp [AttributeContainer.getAttr, normalizeAttrs, List.lookup, hnone]
      | some w =>
        simp [AttributeContainer.getAttr, normalizeAttrs, List.lookup]
    · have hba : (k == a) = false := beq_eq_false_iff_ne.mpr hk
      cases v with
      | none =>
        simp only [normalizeAttrs]
        rw [ih hnd]
        simp [AttributeContainer.getAttr, List.lookup, hba]
      | some w =>
        have lhs :
            AttributeContainer.getAttr
              ⟨t, (normalizeAttrs ((a, some w) :: rest)).map
                    (fun p => (p.1, some p.2))⟩ k
              = AttributeContainer.getAttr
                  ⟨t, (normalizeAttrs rest).map (fun p => (p.1, some p.2))⟩ k := by
          simp [AttributeContainer.getAttr, normalizeAttrs, List.lookup, hba]
        rw [lhs, ih hnd]
        simp [AttributeContainer.getAttr, List.lookup, hba]

/-- C4: deserializing the serialization of an attribute container (whose
attribute names are distinct, as Python object attributes always are)
yields a container equal to the original: equality holds for every
attribute present, attribute order is not significant, and absent or None
attributes decode back to absent or None. -/
theorem serialize_then_deserialize_round_trip (profilerOn : Bool)
    (c : AttributeContainer) (h : (c.attributes.map Prod.fst).Nodup) :
    ∃ data : SerializedData,
      (SerializeAttributeContainer profilerOn c).1 = Except.ok data ∧
      ∃ c2 : AttributeContainer,
        (DeserializeAttributeContainer profilerOn c.container_type data).1 =
          Except.ok (some c2) ∧
        containerEqv c2 c = true := by
  refine ⟨WriteSerialized c, ?_,
    ⟨c.container_type,
     (normalizeAttrs c.attributes).map (fun p => (p.1, some p.2))⟩, ?_, ?_⟩
  · simp [SerializeAttributeContainer, WriteSerialized,
      SerializedData.isEmptyData]
  · simp [DeserializeAttributeContainer, WriteSerialized,
      SerializedData.isEmptyData, ReadSerializedData]
  · simp only [containerEqv, Bool.and_eq_true, decide_eq_true_eq,
      List.all_eq_true]
    refine ⟨trivial, ?_⟩
    intro k _
    exact getAttr_decode_encode c.container_type c.container_type k
      c.attributes h

/-- Witness for C4 at a concrete container with a string attribute, a None
attribute and an integer attribute. -/
theorem serialize_then_deserialize_round_trip_witness :
    ∃ data : SerializedData,
      (SerializeAttributeContainer true roundTripContainerEx).1 =
        Except.ok data ∧
      ∃ c2 : AttributeContainer,
        (DeserializeAttributeContainer true
            roundTripContainerEx.container_type data).1 =
          Except.ok (some c2) ∧
        containerEqv c2 roundTripContainerEx = true :=
  serialize_then_deserialize_round_trip true roundTripContainerEx (by decide)

/-- C1 counterexample: a session-start container, a session-store-only
type, added to an open writable task store is not rejected: the call
returns successfully with the container persisted, so no type-legality
check happens in `AddAttributeContainer`. -/
theorem addAttributeContainer_no_type_check_counterexample :
    ContainerType.sessionStart ∈ SESSION_STORE_ONLY_CONTAINER_TYPES ∧
    taskStoreEx.storage_type = StorageType.task ∧
    AddAttributeContainer taskStoreEx (mkSessionStart "s1") =
      Except.ok { taskStoreEx with containers := [mkSessionStart "s1"] } :=
  ⟨by decide, rfl, rfl⟩

/-- C1 amended: `AddAttributeContainer` performs only the writable-state
check and then persists the container whatever its type; the session-only
and task-only type sets are declared on `BaseStore` but never consulted
here. -/
theorem addAttributeContainer_writes_any_type (s : BaseStore)
    (c : AttributeContainer) (hOpen : s.is_open = true)
    (hRO : s.read_only = false) :
    AddAttributeContainer s c = Except.ok (WriteNewAttributeContainer s c) := by
  simp [AddAttributeContainer, RaiseIfNotWritable, hOpen, hRO]

/-- Witness for the amended C1: the illegal combination of a task store and
a session-start container persists. -/
theorem addAttributeContainer_writes_any_type_witness :
    AddAttributeContainer taskStoreEx (mkSessionStart "s1") =
      Except.ok (WriteNewAttributeContainer taskStoreEx (mkSessionStart "s1")) :=
  addAttributeContainer_writes_any_type taskStoreEx (mkSessionStart "s1")
    rfl rfl

/-- C2 counterexample: on an open writable task store with no
system-configuration containers, `WriteSessionConfiguration` does not
reject the call: it writes the session-configuration container to the
non-session store. -/
theorem writeSessionConfiguration_task_store_counterexample :
    taskStoreEx.storage_type ≠ StorageType.session ∧
    WriteSessionConfiguration taskStoreEx (mkSessionConfiguration "s1") =
      Except.ok
        { taskStoreEx with containers := [mkSessionConfiguration "s1"] } :=
  ⟨by decide, rfl⟩

/-- C2 amended: `WriteSessionConfiguration` performs only the
writable-state check and, unlike `WriteSessionStart` and
`WriteSessionCompletion`, no storage-type check: on any writable store it
writes the container when the store has no system-configuration containers
and silently skips the write when it has some. -/
theorem writeSessionConfiguration_behavior (s : BaseStore)
    (c : AttributeContainer) (hOpen : s.is_open = true)
    (hRO : s.read_only = false) :
    (HasAttributeContainers s ContainerType.systemConfiguration = false →
      WriteSessionConfiguration s c =
        Except.ok (WriteNewAttributeContainer s c)) ∧
    (HasAttributeContainers s ContainerType.systemConfiguration = true →
      WriteSessionConfiguration s c = Except.ok s) := by
  constructor <;> intro hHas <;>
    simp [WriteSessionConfiguration, RaiseIfNotWritable, hOpen, hRO, hHas]

/-- Witness for the amended C2 on a writable task store without
system-configuration containers. -/
theorem writeSessionConfiguration_behavior_witness :
    WriteSessionConfiguration taskStoreEx (mkSessionConfiguration "s1") =
      Except.ok
        (WriteNewAttributeContainer taskStoreEx (mkSessionConfiguration "s1")) :=
  (writeSessionConfiguration_behavior taskStoreEx (mkSessionConfiguration "s1")
    rfl rfl).1 rfl

/-- C7: on a writable task store, `WriteTaskStart` then
`WriteTaskCompletion` both succeed and persist their container, and a
subsequent `WriteSessionStart` on the resulting store raises an I/O error
without writing anything. -/
theorem taskStore_write_scenario (s : BaseStore)
    (ts tc ss : AttributeContainer)
    (hType : s.storage_type = StorageType.task)
    (hOpen : s.is_open = true) (hRO : s.read_only = false) :
    WriteTaskStart s ts = Except.ok (WriteNewAttributeContainer s ts) ∧
    WriteTaskCompletion (WriteNewAttributeContainer s ts) tc =
      Except.ok
        (WriteNewAttributeContainer (WriteNewAttributeContainer s ts) tc) ∧
    WriteSessionStart
        (WriteNewAttributeContainer (WriteNewAttributeContainer s ts) tc) ss =
      Except.error StorageError.sessionStartNotSupported := by
  refine ⟨?_, ?_, ?_⟩ <;>
    simp [WriteTaskStart, WriteTaskCompletion, WriteSessionStart,
      WriteNewAttributeContainer, RaiseIfNotWritable, hType, hOpen, hRO]

/-- Witness for C7 on a concrete task store. -/
theorem taskStore_write_scenario_witness :
    WriteTaskStart taskStoreEx mkTaskStart =
      Except.ok (WriteNewAttributeContainer taskStoreEx mkTaskStart) ∧
    WriteTaskCompletion (WriteNewAttributeContainer taskStoreEx mkTaskStart)
        mkTaskCompletion =
      Except.ok
        (WriteNewAttributeContainer
          (WriteNewAttributeContainer taskStoreEx mkTaskStart)
          mkTaskCompletion) ∧
    WriteSessionStart
        (WriteNewAttributeContainer
          (WriteNewAttributeContainer taskStoreEx mkTaskStart)
          mkTaskCompletion) (mkSessionStart "s1") =
      Except.error StorageError.sessionStartNotSupported :=
  taskStore_write_scenario taskStoreEx mkTaskStart mkTaskCompletion
    (mkSessionStart "s1") rfl rfl rfl

/-- C8: on a closed or read-only store, `AddAttributeContainer` raises the
not-writable error for every container type; the error result carries no
store state, modelling that the exception propagates before any write. -/
theorem addAttributeContainer_not_writable (s : BaseStore)
    (c : AttributeContainer)
    (h : s.is_open = false ∨ s.read_only = true) :
    AddAttributeContainer s c = Except.error StorageError.notWritable := by
  rcases h with h | h <;> simp [AddAttributeContainer, RaiseIfNotWritable, h]

/-- Witness for C8 on a closed store. -/
theorem addAttributeContainer_not_writable_witness :
    AddAttributeContainer closedStoreEx (mkSessionStart "s1") =
      Except.error StorageError.notWritable :=
  addAttributeContainer_not_writable closedStoreEx (mkSessionStart "s1")
    (Or.inl rfl)

/-- C9: running a body under the with-statement protocol on a
`StorageReader` invokes `Close` exactly once on every exit path, both when
the body returns and when it raises, leaving the reader closed. -/
theorem storageReader_scoped_close (α : Type) (r : StorageReader)
    (body : StorageReader → Except StorageError α) :
    (runWithStorageReader r body).2 = r.Close ∧
    (runWithStorageReader r body).2.is_open = false ∧
    (runWithStorageReader r body).2.close_call_count =
      r.close_call_count + 1 := by
  unfold runWithStorageReader StorageReader.enter StorageReader.exitWith
  cases hb : body r <;> simp [hb, StorageReader.Close]

/-- C10: `_DeserializeAttributeContainer` on empty serialized data returns
None without raising and without starting the serializers profiler, for
every container type and profiler setting, while non-empty undecodable
data raises an I/O error. -/
theorem deserialize_empty_returns_none :
    (∀ (profilerOn : Bool) (t : ContainerType),
      DeserializeAttributeContainer profilerOn t SerializedData.empty =
        (Except.ok none, 0)) ∧
    (∀ (profilerOn : Bool) (t : ContainerType),
      (DeserializeAttributeContainer profilerOn t
          SerializedData.invalidText).1 =
        Except.error StorageError.unableToDecodeSerializedData ∧
      (DeserializeAttributeContainer profilerOn t
          SerializedData.malformed).1 =
        Except.error StorageError.unableToReadSerializedData) :=
  ⟨fun _ _ => rfl, fun _ _ => ⟨rfl, rfl⟩⟩

theorem getSessionsStep_ok_wellMerged {idx : Nat} {g : GenState}
    {sess : Session} {g2 : GenState}
    (h : GetSessionsStep idx g = Except.ok (sess, g2)) : sess.wellMerged := by
  obtain ⟨starts, completions, lastCompletion, configs⟩ := g
  cases starts with
  | nil => exact Except.noConfusion h
  | cons st startsRest =>
    rcases hoc : pullCompletion completions lastCompletion with ⟨oc, crest⟩
    cases configs with
    | none =>
      cases oc with
      | none =>
        simp only [GetSessionsStep, pullConfiguration, mergeConfiguration,
          mergeCompletion, hoc] at h
        exact Except.noConfusion h
      | some comp =>
        by_cases hid : comp.sessionIdentifier = st.sessionIdentifier
        · simp only [GetSessionsStep, pullConfiguration, mergeConfiguration,
            mergeCompletion, Session.CopyAttributesFromSessionStart,
            Session.CopyAttributesFromSessionCompletion, hoc, hid, if_pos,
            if_true, Except.ok.injEq, Prod.mk.injEq] at h
          obtain ⟨h1, _⟩ := h
          subst h1
          refine ⟨?_, ?_⟩
          · intro c hc
            exact Option.noConfusion hc
          · intro c hc
            simp only [Option.some.injEq] at hc
            subst hc
            exact hid
        · simp only [GetSessionsStep, pullConfiguration, mergeConfiguration,
            mergeCompletion, Session.CopyAttributesFromSessionStart,
            Session.CopyAttributesFromSessionCompletion, hoc, hid,
            if_false, if_neg, not_false_eq_true] at h
          exact Except.noConfusion h
    | some cfgList =>
      cases cfgList with
      | nil =>
        simp only [GetSessionsStep, pullConfiguration, hoc] at h
        exact Except.noConfusion h
      | cons cfg cfgRest =>
        by_cases hidc : cfg.sessionIdentifier = st.sessionIdentifier
        · cases oc with
          | none =>
            simp only [GetSessionsStep, pullConfiguration, mergeConfiguration,
              mergeCompletion, Session.CopyAttributesFromSessionStart,
              Session.CopyAttributesFromSessionConfiguration, hoc, hidc,
              if_pos, if_true] at h
            exact Except.noConfusion h
          | some comp =>
            by_cases hid : comp.sessionIdentifier = st.sessionIdentifier
            · simp only [GetSessionsStep, pullConfiguration,
                mergeConfiguration, mergeCompletion,
                Session.CopyAttributesFromSessionStart,
                Session.CopyAttributesFromSessionConfiguration,
                Session.CopyAttributesFromSessionCompletion, hoc, hidc, hid,
                if_pos, if_true, Except.ok.injEq, Prod.mk.injEq] at h
              obtain ⟨h1, _⟩ := h
              subst h1
              refine ⟨?_, ?_⟩
              · intro c hc
                simp only [Option.some.injEq] at hc
                subst hc
                exact hidc
              · intro c hc
                simp only [Option.some.injEq] at hc
                subst hc
                exact hid
            · simp only [GetSessionsStep, pullConfiguration,
                mergeConfiguration, mergeCompletion,
                Session.CopyAttributesFromSessionStart,
                Session.CopyAttributesFromSessionConfiguration,
                Session.CopyAttributesFromSessionCompletion, hoc, hidc, hid,
                if_pos, if_true, if_false, if_neg, not_false_eq_true] at h
              exact Except.noConfusion h
        · simp only [GetSessionsStep, pullConfiguration, mergeConfiguration,
            Session.CopyAttributesFromSessionStart,
            Session.CopyAttributesFromSessionConfiguration, hoc, hidc,
            if_false, if_neg, not_false_eq_true] at h
          exact Except.noConfusion h

theorem getSessionsAux_succ (n idx : Nat) (g : GenState) :
    GetSessionsAux (n + 1) idx g =
      match GetSessionsStep idx g with
      | Except.error e => Except.error e
      | Except.ok (sess, g2) =>
        match GetSessionsAux n (idx + 1) g2 with
        | Except.error e => Except.error e
        | Except.ok rest => Except.ok (sess :: rest) := rfl

theorem getSessionsAux_succ_ok {n idx : Nat} {g g2 : GenState}
    {sess : Session} (h : GetSessionsStep idx g = Except.ok (sess, g2)) :
    GetSessionsAux (n + 1) idx g =
      match GetSessionsAux n (idx + 1) g2 with
      | Except.error e => Except.error e
      | Except.ok rest => Except.ok (sess :: rest) := by
  rw [getSessionsAux_succ, h]

theorem getSessionsAux_succ_error {n idx : Nat} {g : GenState}
    {e : StorageError} (h : GetSessionsStep idx g = Except.error e) :
    GetSessionsAux (n + 1) idx g = Except.error e := by
  rw [getSessionsAux_succ, h]

theorem getSessionsAux_ok_wellMerged :
    ∀ (n idx : Nat) (g : GenState) (l : List Session),
      GetSessionsAux n idx g = Except.ok l →
      ∀ sess ∈ l, sess.wellMerged := by
  intro n
  induction n with
  | zero =>
    intro idx g l h
    simp only [GetSessionsAux, Except.ok.injEq] at h
    subst h
    intro sess hmem
    simp at hmem
  | succ n ih =>
    intro idx g l h
    cases hstep : GetSessionsStep idx g with
    | error e =>
      rw [getSessionsAux_succ_error hstep] at h
      exact Except.noConfusion h
    | ok p =>
      obtain ⟨sess0, g2⟩ := p
      rw [getSessionsAux_succ_ok hstep] at h
      cases haux : GetSessionsAux n (idx + 1) g2 with
      | error e =>
        rw [haux] at h
        exact Except.noConfusion h
      | ok rest =>
        rw [haux] at h
        simp only [Except.ok.injEq] at h
        subst h
        intro sess hmem
        rcases List.mem_cons.mp hmem with h1 | h2
        · subst h1; exact getSessionsStep_ok_wellMerged hstep
        · exact ih (idx + 1) g2 rest haux sess h2

/-- C5: in `GetSessions`, a configuration or completion record whose
session identifier does not match the session built from the corresponding
start record makes the loop iteration raise the fatal identifier-mismatch
I/O error for that session index, and every session a successful call
yields has only matching merged records. -/
theorem getSessions_identifier_mismatch_fatal :
    (∀ (s : BaseStore) (l : List Session),
      GetSessions s = Except.ok l → ∀ sess ∈ l, sess.wellMerged) ∧
    (∀ (idx : Nat) (g : GenState) (st : AttributeContainer)
        (rest : List AttributeContainer) (cfg : AttributeContainer)
        (cfgs : List AttributeContainer),
      g.starts = st :: rest → g.configs = some (cfg :: cfgs) →
      cfg.sessionIdentifier ≠ st.sessionIdentifier →
      GetSessionsStep idx g =
        Except.error (StorageError.sessionConfigurationMismatch idx)) ∧
    (∀ (idx : Nat) (g : GenState) (st : AttributeContainer)
        (rest : List AttributeContainer) (comp : AttributeContainer)
        (comps : List AttributeContainer),
      g.starts = st :: rest → g.configs = none →
      g.completions = comp :: comps →
      comp.sessionIdentifier ≠ st.sessionIdentifier →
      GetSessionsStep idx g =
        Except.error (StorageError.sessionCompletionMismatch idx)) := by
  refine ⟨?_, ?_, ?_⟩
  · intro s l h
    exact getSessionsAux_ok_wellMerged s.last_session 1 _ l h
  · intro idx g st rest cfg cfgs hs hcfg hne
    obtain ⟨starts, completions, lastCompletion, configs⟩ := g
    simp only at hs hcfg
    subst hs
    subst hcfg
    rcases hoc : pullCompletion completions lastCompletion with ⟨oc, crest⟩
    simp [GetSessionsStep, pullConfiguration, mergeConfiguration,
      Session.CopyAttributesFromSessionStart,
      Session.CopyAttributesFromSessionConfiguration, hoc, hne]
  · intro idx g st rest comp comps hs hcfg hcompl hne
    obtain ⟨starts, completions, lastCompletion, configs⟩ := g
    simp only at hs hcfg hcompl
    subst hs
    subst hcfg
    subst hcompl
    simp [GetSessionsStep, pullCompletion, pullConfiguration,
      mergeConfiguration, mergeCompletion,
      Session.CopyAttributesFromSessionStart,
      Session.CopyAttributesFromSessionCompletion, hne]

/-- Witness for C5: the session assembled from the matched store is well
merged, a mismatched configuration record raises the configuration
mismatch error, and a mismatched completion record raises the completion
mismatch error, each at session index 1. -/
theorem getSessions_identifier_mismatch_fatal_witness :
    okSessionEx.wellMerged ∧
    GetSessionsStep 1
        ⟨[mkSessionStart "s1"], [], none, some [mkSessionConfiguration "s2"]⟩ =
      Except.error (StorageError.sessionConfigurationMismatch 1) ∧
    GetSessionsStep 1
        ⟨[mkSessionStart "s1"], [mkSessionCompletion "s2"], none, none⟩ =
      Except.error (StorageError.sessionCompletionMismatch 1) :=
  ⟨getSessions_identifier_mismatch_fatal.1 okStoreEx [okSessionEx] rfl
      okSessionEx (by simp),
   getSessions_identifier_mismatch_fatal.2.1 1 _ (mkSessionStart "s1") []
      (mkSessionConfiguration "s2") [] rfl rfl (by decide),
   getSessions_identifier_mismatch_fatal.2.2 1 _ (mkSessionStart "s1") []
      (mkSessionCompletion "s2") [] rfl rfl rfl (by decide)⟩

/-- C3 counterexample: on the store with `last_session = 3` whose
completion stream lacks the record of session 2, `GetSessions` raises the
session-completion identifier mismatch error at session 2 instead of
yielding three sessions. -/
theorem getSessions_store3_counterexample :
    GetSessions store3Ex =
      Except.error (StorageError.sessionCompletionMismatch 2) := rfl

/-- C3 amended: for a store with `last_session = 3` whose three session
starts have the completion stream missing the record of session 2 (so the
stream holds the completions of sessions 1 and 3 only), `GetSessions`
raises the session identifier mismatch I/O error for session completion 2:
completions are consumed positionally, so the completion of session 3 is
merged into session 2. -/
theorem getSessions_missing_middle_completion (s : BaseStore)
    (a b c x z : AttributeContainer)
    (hStarts :
      GetAttributeContainers s ContainerType.sessionStart = [a, b, c])
    (hCompl :
      GetAttributeContainers s ContainerType.sessionCompletion = [x, z])
    (hCfg :
      HasAttributeContainers s ContainerType.sessionConfiguration = false)
    (hLast : s.last_session = 3)
    (hx : x.sessionIdentifier = a.sessionIdentifier)
    (hz : z.sessionIdentifier ≠ b.sessionIdentifier) :
    GetSessions s =
      Except.error (StorageError.sessionCompletionMismatch 2) := by
  have e1 : GetSessionsStep 1 ⟨[a, b, c], [x, z], none, none⟩ =
      Except.ok
        ({ identifier := a.sessionIdentifier, startRecord := a,
           configurationRecord := none, completionRecord := some x },
         ⟨[b, c], [z], some x, none⟩) := by
    simp [GetSessionsStep, pullCompletion, pullConfiguration,
      mergeConfiguration, mergeCompletion,
      Session.CopyAttributesFromSessionStart,
      Session.CopyAttributesFromSessionCompletion, hx]
  have e2 : GetSessionsStep 2 ⟨[b, c], [z], some x, none⟩ =
      Except.error (StorageError.sessionCompletionMismatch 2) := by
    simp [GetSessionsStep, pullCompletion, pullConfiguration,
      mergeConfiguration, mergeCompletion,
      Session.CopyAttributesFromSessionStart,
      Session.CopyAttributesFromSessionCompletion, hz]
  have e2' : GetSessionsAux 2 2 ⟨[b, c], [z], some x, none⟩ =
      Except.error (StorageError.sessionCompletionMismatch 2) :=
    getSessionsAux_succ_error e2
  have e1' : GetSessionsAux 3 1 ⟨[a, b, c], [x, z], none, none⟩ =
      Except.error (StorageError.sessionCompletionMismatch 2) := by
    rw [(getSessionsAux_succ_ok e1 :
      GetSessionsAux 3 1 ⟨[a, b, c], [x, z], none, none⟩ = _), e2']
  unfold GetSessions
  rw [hStarts, hCompl, hLast, hCfg]
  simpa using e1'

/-- Witness for the amended C3 at the concrete store. -/
theorem getSessions_missing_middle_completion_witness :
    GetSessions store3Ex =
      Except.error (StorageError.sessionCompletionMismatch 2) :=
  getSessions_missing_middle_completion store3Ex
    (mkSessionStart "s1") (mkSessionStart "s2") (mkSessionStart "s3")
    (mkSessionCompletion "s1") (mkSessionCompletion "s3")
    rfl rfl rfl rfl rfl (by decide)

/-- C6: evaluation at the failing inputs.  Exhausting the
session-completion stream is not tolerated by the code: with starts for s1
and s2 but only the completion of s1, the stale `session_completion`
variable is merged again into session 2 and the call raises the
session-completion identifier mismatch error; with no completion record at
all the loop reads the unbound `session_completion` variable. -/
theorem getSessions_completion_exhaustion_raises :
    GetSessions staleCompletionStoreEx =
      Except.error (StorageError.sessionCompletionMismatch 2) ∧
    GetSessions noCompletionStoreEx =
      Except.error StorageError.unboundLocalSessionCompletion :=
  ⟨rfl, rfl⟩

end Plaso
